import Mathlib

/-!
# Verification of the deploy-rs build-and-push core

Shallow embedding of `src/data.rs` and `src/push.rs` of the deploy-rs
repository, together with proofs of the specification claims about the
settings merge, derivation resolution, build-branch selection, the push
step and error classification.

Subprocesses (nix build / copy / sign / show-derivation / eval /
path-info) are modelled by oracles: a `Except Unit α` value whose
`.error ()` case stands for the spawn/wait io::Error and whose `.ok`
payload carries the observed exit code and decoded output.  Each embedded
function returns, besides its `Result`, the list of subprocess
invocations it performed, so that claims about "which commands run" can
be stated as facts about that trace.
-/

namespace DeployRs

/-! ## data.rs — the settings data model

`GenericSettings` mirrors `src/data.rs` lines 10–66: every scalar field
is an `Option` merged with the `merge::option::overwrite_none` strategy,
and `ssh_opts` is a list merged with `merge::vec::append`.
(`PathBuf` is modelled as `String`; `u16` as `Nat` — no arithmetic is
ever performed on the timeouts.) -/
structure GenericSettings where
  ssh_user : Option String
  user : Option String
  ssh_opts : List String
  compress : Option Bool
  fast_connection : Option Bool
  auto_rollback : Option Bool
  confirm_timeout : Option Nat
  activation_timeout : Option Nat
  temp_path : Option String
  magic_rollback : Option Bool
  sudo_opt : Option String
  remote_build : Option Bool
  interactive_sudo : Option Bool
deriving DecidableEq, Repr

/-- `merge::option::overwrite_none`: the left (self) value is kept when
present; a `none` left is overwritten by the right value. -/
def overwrite_none {α : Type} (left right : Option α) : Option α :=
  match left with
  | some v => some v
  | none => right

/-- `merge::vec::append`: the right list is appended to the left one. -/
def vec_append {α : Type} (left right : List α) : List α :=
  left ++ right

/-- The `Merge` implementation derived for `GenericSettings` in
`src/data.rs`: field-wise `overwrite_none` for every scalar `Option`
field and `vec_append` for `ssh_opts` (`self.merge(other)` with `self`
as the left operand). -/
def GenericSettings.merge (self other : GenericSettings) : GenericSettings where
  ssh_user := overwrite_none self.ssh_user other.ssh_user
  user := overwrite_none self.user other.user
  ssh_opts := vec_append self.ssh_opts other.ssh_opts
  compress := overwrite_none self.compress other.compress
  fast_connection := overwrite_none self.fast_connection other.fast_connection
  auto_rollback := overwrite_none self.auto_rollback other.auto_rollback
  confirm_timeout := overwrite_none self.confirm_timeout other.confirm_timeout
  activation_timeout := overwrite_none self.activation_timeout other.activation_timeout
  temp_path := overwrite_none self.temp_path other.temp_path
  magic_rollback := overwrite_none self.magic_rollback other.magic_rollback
  sudo_opt := overwrite_none self.sudo_opt other.sudo_opt
  remote_build := overwrite_none self.remote_build other.remote_build
  interactive_sudo := overwrite_none self.interactive_sudo other.interactive_sudo

/-- Modelled from the spec: the fold that produces `MergedSettings` from
the root, node-override and profile-override `GenericSettings` is not in
`src/` (only its callers' data lives there); per the spec it is a "fold
of root, node, and profile GenericSettings" with the fixed, asymmetric
precedence "profile > node > root" per scalar field.  With the
`overwrite_none` strategy fixed by `src/data.rs`, that precedence forces
the fold to start from the profile layer and merge in the node layer and
then the root layer. -/
def mergedSettings (root node profile : GenericSettings) : GenericSettings :=
  (profile.merge node).merge root

/-- The spec's wording for scalar merging: the profile's value if
present, else the node's, else the root's (possibly absent). -/
def specPick {α : Type} (root node profile : Option α) : Option α :=
  match profile with
  | some v => some v
  | none =>
    match node with
    | some v => some v
    | none => root

/-- The spec's wording for the list field: root ++ node ++ profile. -/
def specListMerge {α : Type} (root node profile : List α) : List α :=
  root ++ node ++ profile

/-- A `GenericSettings` value with every field absent. -/
def GenericSettings.unset : GenericSettings where
  ssh_user := none
  user := none
  ssh_opts := []
  compress := none
  fast_connection := none
  auto_rollback := none
  confirm_timeout := none
  activation_timeout := none
  temp_path := none
  magic_rollback := none
  sudo_opt := none
  remote_build := none
  interactive_sudo := none

/-! ## push.rs — error taxonomy and subprocess model -/

/-- `PushProfileError` from `src/push.rs` lines 17–60.  The
`std::io::Error` / `Utf8Error` / `serde_json::Error` payloads carry no
information the claims consult, so they are dropped; the `Option<i32>`
exit-code payloads are kept as `Option Int`. -/
inductive PushProfileError where
  | EvalStore
  | EvalStoreUtf8
  | ShowDerivation
  | ShowDerivationExit (code : Option Int)
  | ShowDerivationUtf8
  | ShowDerivationParse
  | ShowDerivationInvalid
  | ShowDerivationEmpty
  | Build
  | BuildExit (code : Option Int)
  | DeployRsActivateDoesntExist
  | ActivateRsDoesntExist
  | Sign
  | SignExit (code : Option Int)
  | Copy
  | CopyExit (code : Option Int)
  | PathInfo
deriving DecidableEq, Repr

/-- `serde_json::value::Value`. -/
inductive Json where
  | null
  | bool (b : Bool)
  | num (n : Int)
  | str (s : String)
  | arr (elems : List Json)
  | obj (fields : List (String × Json))

/-- `Value::get(key)`: a key lookup that yields `none` on every
non-object value and on a missing key. -/
def Json.get (j : Json) (key : String) : Option Json :=
  match j with
  | .obj fields => (fields.find? (fun kv => kv.1 == key)).map (fun kv => kv.2)
  | _ => none

/-- `Value::as_object()`. -/
def Json.asObject : Json → Option (List (String × Json))
  | .obj fields => some fields
  | _ => none

/-- The decoded stdout of the show-derivation subprocess, as the code
inspects it in stages: invalid UTF-8 (`ShowDerivationUtf8`), UTF-8 that
fails JSON parsing (`ShowDerivationParse`), or a parsed value. -/
inductive StdoutDecode where
  | utf8Error
  | parseError
  | json (j : Json)

/-- Subprocess invocations recorded by the embedded functions.  The two
`enter` events stand for the `info!("Building profile …")` lines at the
heads of `build_profile_locally` and `build_profile_remotely`. -/
inductive Event where
  | enterLocalBuild
  | enterRemoteBuild
  | buildLocal (derivation_name : String)
  | sign (path : String)
  | copyDerivation (derivation_name : String)
  | buildRemote (derivation_name : String)
  | copyClosure (uri : String)
deriving DecidableEq, Repr

/-- The parts of `PushProfileData` (with its nested `DeployData` and
`DeployDefs`) that the embedded functions consult. -/
structure PushData where
  supports_flakes : Bool
  check_sigs : Bool
  profile_path : String
  node_hostname : String
  hostname_override : Option String
  ssh_user : String
  merged_settings : GenericSettings
deriving Repr

/-- Oracle for the subprocesses and filesystem checks of
`build_profile_locally`: the build command's `status()` (spawn error or
exit code), the existence of the two activation entry points, the
`LOCAL_KEY` environment variable, and the sign command's `status()`. -/
structure LocalEnv where
  build_status : Except Unit (Option Int)
  deploy_rs_activate_exists : Bool
  activate_rs_exists : Bool
  local_key : Option String
  sign_status : Except Unit (Option Int)
deriving Repr

/-- Oracle for the two subprocesses of `build_profile_remotely`: the
derivation-copy's and the remote build's exit. -/
structure RemoteEnv where
  copy_status : Except Unit (Option Int)
  build_status : Except Unit (Option Int)
deriving Repr

/-- Oracle for the resolution subprocesses of `build_profile`:
show-derivation (exit code and staged stdout decoding), the store-root
eval (`.ok none` = stdout invalid UTF-8; its exit code is never
checked), and path-info (`.ok none` = stdout invalid UTF-8; its exit
code is never checked), plus the oracles for whichever build branch
runs. -/
structure BuildEnv where
  show_derivation : Except Unit (Option Int × StdoutDecode)
  eval_store : Except Unit (Option String)
  path_info : Except Unit (Option String)
  local_build : LocalEnv
  remote_build : RemoteEnv

/-- `build_profile_locally` (push.rs lines 74–175).  Argument assembly
(flake vs legacy invocation, out-link handling, TMPDIR forwarding,
extra build args, lines 83–116) only configures the subprocess and is
absorbed by the `build_status` oracle; the control flow after
`status()` is embedded exactly. -/
def build_profile_locally (env : LocalEnv) (data : PushData) (derivation_name : String) :
    List Event × Except PushProfileError Unit :=
  match env.build_status with
  | .error _ => ([.enterLocalBuild, .buildLocal derivation_name], .error .Build)
  | .ok build_exit_code =>
    if build_exit_code = some 0 then
      if !env.deploy_rs_activate_exists then
        ([.enterLocalBuild, .buildLocal derivation_name], .error .DeployRsActivateDoesntExist)
      else if !env.activate_rs_exists then
        ([.enterLocalBuild, .buildLocal derivation_name], .error .ActivateRsDoesntExist)
      else
        match env.local_key with
        | some _ =>
          match env.sign_status with
          | .error _ =>
            ([.enterLocalBuild, .buildLocal derivation_name, .sign data.profile_path],
             .error .Sign)
          | .ok sign_exit_code =>
            if sign_exit_code = some 0 then
              ([.enterLocalBuild, .buildLocal derivation_name, .sign data.profile_path],
               .ok ())
            else
              ([.enterLocalBuild, .buildLocal derivation_name, .sign data.profile_path],
               .error (.SignExit sign_exit_code))
        | none => ([.enterLocalBuild, .buildLocal derivation_name], .ok ())
    else ([.enterLocalBuild, .buildLocal derivation_name], .error (.BuildExit build_exit_code))

/-- `build_profile_remotely` (push.rs lines 196–292).  The store address
and quoted ssh options only configure the subprocesses; the copy-then-
build control flow is embedded exactly. -/
def build_profile_remotely (env : RemoteEnv) (derivation_name : String) :
    List Event × Except PushProfileError Unit :=
  match env.copy_status with
  | .error _ => ([.enterRemoteBuild, .copyDerivation derivation_name], .error .Copy)
  | .ok copy_exit_code =>
    if copy_exit_code = some 0 then
      match env.build_status with
      | .error _ =>
        ([.enterRemoteBuild, .copyDerivation derivation_name, .buildRemote derivation_name],
         .error .Build)
      | .ok build_exit_code =>
        if build_exit_code = some 0 then
          ([.enterRemoteBuild, .copyDerivation derivation_name, .buildRemote derivation_name],
           .ok ())
        else
          ([.enterRemoteBuild, .copyDerivation derivation_name, .buildRemote derivation_name],
           .error (.BuildExit build_exit_code))
    else ([.enterRemoteBuild, .copyDerivation derivation_name], .error (.CopyExit copy_exit_code))

/-- push.rs lines 322–331: probe the `"derivations"` key first (Nix
2.33+ nests derivations under it), fall back to the whole value, then
require an object. -/
def derivationInfo (show_derivation_json : Json) :
    Except PushProfileError (List (String × Json)) :=
  match ((show_derivation_json.get "derivations").getD show_derivation_json).asObject with
  | some fields => .ok fields
  | none => .error .ShowDerivationInvalid

/-- push.rs lines 328–331: the first key of the derivation object, or
`ShowDerivationEmpty` when it has none. -/
def deriverKey (show_derivation_json : Json) : Except PushProfileError String :=
  match derivationInfo show_derivation_json with
  | .error e => .error e
  | .ok fields =>
    match fields with
    | [] => .error .ShowDerivationEmpty
    | kv :: _ => .ok kv.1

/-- Rust's `str::starts_with` (push.rs line 346), modelled over the
character list so that it evaluates by kernel reduction. -/
def rustStartsWith (s pre : String) : Bool :=
  pre.data.isPrefixOf s.data

/-- Rust's `str::trim` (push.rs line 375), modelled over the character
list: drop whitespace from both ends. -/
def rustTrim (s : String) : String :=
  ⟨((s.data.dropWhile Char.isWhitespace).reverse.dropWhile Char.isWhitespace).reverse⟩

/-- push.rs lines 346–350: normalize the deriver key to a full store
path (Nix 2.32+ returns paths without the store-root prefix). -/
def normalizeDeriver (nix_store deriver_key : String) : String :=
  if rustStartsWith deriver_key nix_store then deriver_key
  else nix_store ++ "/" ++ deriver_key

/-- push.rs lines 352–364: the `^out`-suffixed deriver, used only when
flakes are supported or a remote build was requested. -/
def newDeriver (supports_flakes : Bool) (remote_build : Option Bool)
    (deriver : String) : String :=
  if supports_flakes || remote_build.getD false then deriver ++ "^out"
  else deriver

/-- push.rs lines 375–391: keep the `^out`-suffixed deriver exactly when
the path-info stdout, UTF-8-decoded and trimmed, echoes the deriver back
(`path_info_stdout = none` models invalid UTF-8). -/
def resolveDeriver (supports_flakes : Bool) (remote_build : Option Bool)
    (deriver : String) (path_info_stdout : Option String) : String :=
  if path_info_stdout.map rustTrim = some deriver then
    newDeriver supports_flakes remote_build deriver
  else deriver

/-- push.rs lines 294–391: the resolution phase of `build_profile`, from
the show-derivation query to the final deriver, with every failure
mapped to its `PushProfileError` case exactly as in the source. -/
def resolve_deriver_phase (env : BuildEnv) (data : PushData) :
    Except PushProfileError String :=
  match env.show_derivation with
  | .error _ => .error .ShowDerivation
  | .ok (status_code, stdout) =>
    if status_code = some 0 then
      match stdout with
      | .utf8Error => .error .ShowDerivationUtf8
      | .parseError => .error .ShowDerivationParse
      | .json show_derivation_json =>
        match deriverKey show_derivation_json with
        | .error e => .error e
        | .ok key =>
          match env.eval_store with
          | .error _ => .error .EvalStore
          | .ok none => .error .EvalStoreUtf8
          | .ok (some nix_store) =>
            let deriver := normalizeDeriver nix_store key
            match env.path_info with
            | .error _ => .error .PathInfo
            | .ok path_info_stdout =>
              .ok (resolveDeriver data.supports_flakes data.merged_settings.remote_build
                    deriver path_info_stdout)
    else .error (.ShowDerivationExit status_code)

/-- `build_profile` (push.rs lines 294–408): resolve the deriver, then
run exactly one of the two build branches according to the effective
`remote_build` setting (lines 392–405). -/
def build_profile (env : BuildEnv) (data : PushData) :
    List Event × Except PushProfileError Unit :=
  match resolve_deriver_phase env data with
  | .error e => ([], .error e)
  | .ok deriver =>
    if data.merged_settings.remote_build.getD false then
      build_profile_remotely env.remote_build deriver
    else
      build_profile_locally env.local_build data deriver

/-- Oracle for the single subprocess of `push_profile`. -/
structure PushEnv where
  copy_status : Except Unit (Option Int)
deriving Repr

/-- Rust's `Display` for `bool`, as interpolated into the URI. -/
def boolString (b : Bool) : String := if b then "true" else "false"

/-- push.rs lines 458–461: the destination URI of the closure copy. -/
def destinationUri (ssh_user hostname : String) (compress : Bool) : String :=
  "ssh://" ++ ssh_user ++ "@" ++ hostname ++ "?compress=" ++ boolString compress

/-- `push_profile` (push.rs lines 410–475): skip the copy entirely when
the profile was remote-built, otherwise run exactly one closure copy to
the destination URI built from the ssh user, hostname (command-line
override first) and the `compress` setting defaulted to `false`. -/
def push_profile (env : PushEnv) (data : PushData) :
    List Event × Except PushProfileError Unit :=
  if !(data.merged_settings.remote_build.getD false) then
    let hostname :=
      match data.hostname_override with
      | some x => x
      | none => data.node_hostname
    let compress := data.merged_settings.compress.getD false
    let uri := destinationUri data.ssh_user hostname compress
    match env.copy_status with
    | .error _ => ([.copyClosure uri], .error .Copy)
    | .ok copy_exit_code =>
      if copy_exit_code = some 0 then ([.copyClosure uri], .ok ())
      else ([.copyClosure uri], .error (.CopyExit copy_exit_code))
  else ([], .ok ())

/-- Modelled from the spec: the per-target driver that sequences
`build_profile` and `push_profile` lives outside `src/`; the spec fixes
it as "Within a target, steps are strictly sequential: resolve → build →
push" with "a failing target halts at the failing phase". -/
def deployTarget (benv : BuildEnv) (penv : PushEnv) (data : PushData) :
    List Event × Except PushProfileError Unit :=
  match build_profile benv data with
  | (build_trace, .error e) => (build_trace, .error e)
  | (build_trace, .ok _) =>
    match push_profile penv data with
    | (push_trace, r) => (build_trace ++ push_trace, r)

/-- Branch-entry events of the two build branches. -/
def Event.isBranchEntry : Event → Bool
  | .enterLocalBuild => true
  | .enterRemoteBuild => true
  | _ => false

/-- Sign invocations. -/
def Event.isSign : Event → Bool
  | .sign _ => true
  | _ => false

/-- Closure-copy invocations (the push step's `nix copy`). -/
def Event.isCopyClosure : Event → Bool
  | .copyClosure _ => true
  | _ => false

/-! ## Concrete sample inputs used by the witnesses -/

/-- A show-derivation output keyed by one store path. -/
def sampleJson : Json := .obj [("/nix/store/abc.drv", .null)]

/-- A local-build oracle whose build exits with code 1. -/
def sampleLocalEnv : LocalEnv where
  build_status := .ok (some 1)
  deploy_rs_activate_exists := true
  activate_rs_exists := true
  local_key := none
  sign_status := .ok (some 0)

/-- A remote-build oracle whose two subprocesses succeed. -/
def sampleRemoteEnv : RemoteEnv where
  copy_status := .ok (some 0)
  build_status := .ok (some 0)

/-- A resolution oracle that succeeds and resolves to
`/nix/store/abc.drv`, paired with `sampleLocalEnv`. -/
def sampleBuildEnv : BuildEnv where
  show_derivation := .ok (some 0, .json sampleJson)
  eval_store := .ok (some "/nix/store")
  path_info := .ok (some "")
  local_build := sampleLocalEnv
  remote_build := sampleRemoteEnv

/-- A push oracle whose copy succeeds. -/
def samplePushEnv : PushEnv where
  copy_status := .ok (some 0)

/-- Target data with every merged setting absent (local build). -/
def sampleData : PushData where
  supports_flakes := false
  check_sigs := true
  profile_path := "/nix/store/profile"
  node_hostname := "example.com"
  hostname_override := none
  ssh_user := "deploy"
  merged_settings := GenericSettings.unset

/-- `sampleData` with the effective `remote_build` setting true. -/
def sampleRemoteData : PushData :=
  { sampleData with
      merged_settings := { GenericSettings.unset with remote_build := some true } }

/-- `sampleData` with the merged `compress` setting present and true. -/
def sampleCompressData : PushData :=
  { sampleData with
      merged_settings := { GenericSettings.unset with compress := some true } }

/-! ## Theorems -/

theorem overwrite_chain_eq_specPick {α : Type} (r n p : Option α) :
    overwrite_none (overwrite_none p n) r = specPick r n p := by
  cases p <;> cases n <;> rfl

/-- C1: for every root/node/profile triple and every scalar optional
field listed in the claim (ssh user, compress, fast-connection,
auto-rollback, confirm/activation timeouts, temp path, magic-rollback,
sudo, remote-build, interactive-sudo), the merged settings hold the
profile's value if present, else the node's, else the root's, else no
value — each field decided independently of the others. -/
theorem merged_scalar_fields (root node profile : GenericSettings) :
    (mergedSettings root node profile).ssh_user
      = specPick root.ssh_user node.ssh_user profile.ssh_user
    ∧ (mergedSettings root node profile).compress
      = specPick root.compress node.compress profile.compress
    ∧ (mergedSettings root node profile).fast_connection
      = specPick root.fast_connection node.fast_connection profile.fast_connection
    ∧ (mergedSettings root node profile).auto_rollback
      = specPick root.auto_rollback node.auto_rollback profile.auto_rollback
    ∧ (mergedSettings root node profile).confirm_timeout
      = specPick root.confirm_timeout node.confirm_timeout profile.confirm_timeout
    ∧ (mergedSettings root node profile).activation_timeout
      = specPick root.activation_timeout node.activation_timeout profile.activation_timeout
    ∧ (mergedSettings root node profile).temp_path
      = specPick root.temp_path node.temp_path profile.temp_path
    ∧ (mergedSettings root node profile).magic_rollback
      = specPick root.magic_rollback node.magic_rollback profile.magic_rollback
    ∧ (mergedSettings root node profile).sudo_opt
      = specPick root.sudo_opt node.sudo_opt profile.sudo_opt
    ∧ (mergedSettings root node profile).remote_build
      = specPick root.remote_build node.remote_build profile.remote_build
    ∧ (mergedSettings root node profile).interactive_sudo
      = specPick root.interactive_sudo node.interactive_sudo profile.interactive_sudo := by
  refine ⟨?_, ?_, ?_, ?_, ?_, ?_, ?_, ?_, ?_, ?_, ?_⟩ <;>
    exact overwrite_chain_eq_specPick ..

/-- C2 counterexample: with root ssh_opts `["-A"]`, node `["-v"]` and
profile `["-p"]`, the merged list is not `root ++ node ++ profile =
["-A", "-v", "-p"]` (it is `["-p", "-v", "-A"]`). -/
theorem merged_ssh_opts_not_root_first :
    (mergedSettings
        { GenericSettings.unset with ssh_opts := ["-A"] }
        { GenericSettings.unset with ssh_opts := ["-v"] }
        { GenericSettings.unset with ssh_opts := ["-p"] }).ssh_opts
      ≠ specListMerge ["-A"] ["-v"] ["-p"] := by
  decide

/-- C2 (amended): the merged ssh-option list equals the concatenation
profile ++ node ++ root, preserving element order and duplicates,
including when any or all of the three operand lists are empty. -/
theorem merged_ssh_opts_eq_profile_first (root node profile : GenericSettings) :
    (mergedSettings root node profile).ssh_opts
      = profile.ssh_opts ++ node.ssh_opts ++ root.ssh_opts := by
  simp [mergedSettings, GenericSettings.merge, vec_append]

/-- C3 counterexample: with flake support off and no remote build
requested, the path-info query echoing the candidate back does not make
the resolver append the `^out` output selector — the claim's first half
fails as stated for that configuration. -/
theorem resolveDeriver_echo_no_suffix_counterexample :
    resolveDeriver false none "/nix/store/abc.drv" (some "/nix/store/abc.drv")
      ≠ "/nix/store/abc.drv" ++ "^out" := by
  decide

/-- C3 (amended): when the path-info output, UTF-8 decoded and trimmed,
equals the candidate, the resolver appends the `^out` default-output
selector provided flake support is on or remote build was requested
(otherwise the candidate stays raw even on an echo); for any other
path-info result (a different path, or a UTF-8 decode failure) it never
appends the suffix and uses the raw candidate. -/
theorem resolveDeriver_cases (supports_flakes : Bool) (remote_build : Option Bool)
    (deriver : String) (path_info_stdout : Option String) :
    (path_info_stdout.map rustTrim = some deriver →
        (supports_flakes || remote_build.getD false) = true →
        resolveDeriver supports_flakes remote_build deriver path_info_stdout
          = deriver ++ "^out")
    ∧ (path_info_stdout.map rustTrim = some deriver →
        (supports_flakes || remote_build.getD false) = false →
        resolveDeriver supports_flakes remote_build deriver path_info_stdout = deriver)
    ∧ (path_info_stdout.map rustTrim ≠ some deriver →
        resolveDeriver supports_flakes remote_build deriver path_info_stdout = deriver) := by
  refine ⟨fun h1 h2 => ?_, fun h1 h2 => ?_, fun h1 => ?_⟩
  · simp [resolveDeriver, newDeriver, h1, h2]
  · simp [resolveDeriver, newDeriver, h1, h2]
  · simp [resolveDeriver, h1]

/-- Witness for C3's amended theorem at concrete inputs: an echo with
flakes on appends `^out`; an echo with flakes off and no remote build
does not; a non-echo never does. -/
theorem resolveDeriver_cases_witness :
    resolveDeriver true none "/nix/store/abc.drv" (some "/nix/store/abc.drv")
        = "/nix/store/abc.drv" ++ "^out"
    ∧ resolveDeriver false none "/nix/store/abc.drv" (some "/nix/store/abc.drv")
        = "/nix/store/abc.drv"
    ∧ resolveDeriver true none "/nix/store/abc.drv" (some "/nix/store/other")
        = "/nix/store/abc.drv" :=
  ⟨(resolveDeriver_cases true none "/nix/store/abc.drv"
      (some "/nix/store/abc.drv")).1 (by decide) (by decide),
   (resolveDeriver_cases false none "/nix/store/abc.drv"
      (some "/nix/store/abc.drv")).2.1 (by decide) (by decide),
   (resolveDeriver_cases true none "/nix/store/abc.drv"
      (some "/nix/store/other")).2.2 (by decide)⟩

/-- C4: the resolver probes the `"derivations"` key first and falls back
to the top-level value when it is absent; a selected value that is not a
JSON object yields `ShowDerivationInvalid`, and an object with no keys
yields `ShowDerivationEmpty`. -/
theorem deriverKey_shape (j : Json) :
    (((j.get "derivations").getD j).asObject = none →
        deriverKey j = .error .ShowDerivationInvalid)
    ∧ (((j.get "derivations").getD j).asObject = some [] →
        deriverKey j = .error .ShowDerivationEmpty)
    ∧ (∀ v, j.get "derivations" = some v → (j.get "derivations").getD j = v)
    ∧ (j.get "derivations" = none → (j.get "derivations").getD j = j) := by
  refine ⟨fun h => ?_, fun h => ?_, fun v h => ?_, fun h => ?_⟩
  · simp [deriverKey, derivationInfo, h]
  · simp [deriverKey, derivationInfo, h]
  · rw [h]; rfl
  · rw [h]; rfl

/-- Witness for C4 at concrete inputs: a non-object value is
`ShowDerivationInvalid`, an empty object is `ShowDerivationEmpty`, a
present `"derivations"` key is selected, and an absent one falls back to
the top level. -/
theorem deriverKey_shape_witness :
    deriverKey (.str "x") = .error .ShowDerivationInvalid
    ∧ deriverKey (.obj []) = .error .ShowDerivationEmpty
    ∧ ((Json.obj [("derivations", sampleJson)]).get "derivations").getD
        (.obj [("derivations", sampleJson)]) = sampleJson
    ∧ (sampleJson.get "derivations").getD sampleJson = sampleJson :=
  ⟨(deriverKey_shape (.str "x")).1 rfl,
   (deriverKey_shape (.obj [])).2.1 rfl,
   (deriverKey_shape (.obj [("derivations", sampleJson)])).2.2.1 sampleJson rfl,
   (deriverKey_shape sampleJson).2.2.2 rfl⟩

theorem filter_branch_local (env : LocalEnv) (data : PushData) (d : String) :
    (build_profile_locally env data d).1.filter Event.isBranchEntry
      = [Event.enterLocalBuild] := by
  unfold build_profile_locally
  repeat' split
  all_goals rfl

theorem filter_branch_remote (env : RemoteEnv) (d : String) :
    (build_profile_remotely env d).1.filter Event.isBranchEntry
      = [Event.enterRemoteBuild] := by
  unfold build_profile_remotely
  repeat' split
  all_goals rfl

/-- C5: once `build_profile` has resolved a deriver, exactly one of the
local-build and remote-build branches runs — never both, never neither —
and it is the remote branch exactly when the effective `remote_build`
setting is true (local when false or absent). -/
theorem build_profile_one_branch (env : BuildEnv) (data : PushData) (deriver : String)
    (hres : resolve_deriver_phase env data = .ok deriver) :
    (build_profile env data).1.filter Event.isBranchEntry
      = (if data.merged_settings.remote_build.getD false
         then [Event.enterRemoteBuild] else [Event.enterLocalBuild]) := by
  unfold build_profile
  rw [hres]
  cases hrb : data.merged_settings.remote_build.getD false with
  | true => simp [hrb, filter_branch_remote]
  | false => simp [hrb, filter_branch_local]

/-- Witness for C5: with the sample oracles the resolution succeeds and
exactly the local branch runs. -/
theorem build_profile_one_branch_witness :
    (build_profile sampleBuildEnv sampleData).1.filter Event.isBranchEntry
      = [Event.enterLocalBuild] := by
  rw [build_profile_one_branch sampleBuildEnv sampleData "/nix/store/abc.drv" rfl]
  rfl

/-- C6: `push_profile` issues zero closure-copy invocations and returns
success with no other effect when the effective `remote_build` setting
is true, and exactly one closure-copy invocation otherwise. -/
theorem push_profile_copy_invocations (env : PushEnv) (data : PushData) :
    (data.merged_settings.remote_build.getD false = true →
        push_profile env data = ([], .ok ()))
    ∧ (data.merged_settings.remote_build.getD false = false →
        ((push_profile env data).1.filter Event.isCopyClosure).length = 1) := by
  constructor
  · intro h
    simp [push_profile, h]
  · intro h
    unfold push_profile
    rw [h]
    cases env.copy_status with
    | error e => rfl
    | ok c => by_cases hc : c = some 0 <;> simp [hc] <;> rfl

/-- Witness for C6: the sample remote-built target copies nothing and
succeeds; the sample locally-built target copies exactly once. -/
theorem push_profile_copy_invocations_witness :
    push_profile samplePushEnv sampleRemoteData = ([], .ok ())
    ∧ ((push_profile samplePushEnv sampleData).1.filter Event.isCopyClosure).length = 1 :=
  ⟨(push_profile_copy_invocations samplePushEnv sampleRemoteData).1 rfl,
   (push_profile_copy_invocations samplePushEnv sampleData).2 rfl⟩

/-- C7: a local build whose build subprocess exits with code 1 makes the
per-target pipeline return the typed error `BuildExit (some 1)` and
perform no sign invocation and no closure-copy step for that target. -/
theorem build_exit_one_halts (benv : BuildEnv) (penv : PushEnv) (data : PushData)
    (deriver : String)
    (hres : resolve_deriver_phase benv data = .ok deriver)
    (hrb : data.merged_settings.remote_build.getD false = false)
    (hbuild : benv.local_build.build_status = .ok (some 1)) :
    (deployTarget benv penv data).2 = .error (.BuildExit (some 1))
    ∧ (deployTarget benv penv data).1.filter Event.isSign = []
    ∧ (deployTarget benv penv data).1.filter Event.isCopyClosure = [] := by
  have hb : build_profile benv data
      = ([.enterLocalBuild, .buildLocal deriver], .error (.BuildExit (some 1))) := by
    unfold build_profile
    rw [hres]
    simp [hrb, build_profile_locally, hbuild]
  unfold deployTarget
  rw [hb]
  exact ⟨rfl, rfl, rfl⟩

/-- Witness for C7: the sample oracles resolve to `/nix/store/abc.drv`,
the build exits 1, and the pipeline halts with `BuildExit (some 1)`,
signing and copying nothing. -/
theorem build_exit_one_halts_witness :
    (deployTarget sampleBuildEnv samplePushEnv sampleData).2
        = .error (.BuildExit (some 1))
    ∧ (deployTarget sampleBuildEnv samplePushEnv sampleData).1.filter Event.isSign = []
    ∧ (deployTarget sampleBuildEnv samplePushEnv sampleData).1.filter
        Event.isCopyClosure = [] :=
  build_exit_one_halts sampleBuildEnv samplePushEnv sampleData "/nix/store/abc.drv"
    rfl rfl rfl

/-- C8: store-root normalization returns a candidate that already starts
with the store root unchanged, and otherwise prepends the store root
(with the path separator) to the candidate. -/
theorem normalizeDeriver_cases (nix_store deriver_key : String) :
    (rustStartsWith deriver_key nix_store = true →
        normalizeDeriver nix_store deriver_key = deriver_key)
    ∧ (rustStartsWith deriver_key nix_store = false →
        normalizeDeriver nix_store deriver_key = nix_store ++ "/" ++ deriver_key) := by
  constructor <;> intro h <;> simp [normalizeDeriver, h]

/-- Witness for C8: a full store path is kept as-is; a bare key gets the
store root prepended. -/
theorem normalizeDeriver_cases_witness :
    normalizeDeriver "/nix/store" "/nix/store/abc.drv" = "/nix/store/abc.drv"
    ∧ normalizeDeriver "/nix/store" "abc.drv" = "/nix/store" ++ "/" ++ "abc.drv" :=
  ⟨(normalizeDeriver_cases "/nix/store" "/nix/store/abc.drv").1 (by decide),
   (normalizeDeriver_cases "/nix/store" "abc.drv").2 (by decide)⟩

/-- C9: at every wait-for-exit site (local build, sign, remote
derivation copy, remote build, closure copy, show-derivation) a
terminating status whose exit code is absent or non-zero produces the
site's typed error carrying that exact `Option` code — `none` for
signal death, the raw code otherwise, never coerced. -/
theorem exit_codes_propagated_raw
    (lenv : LocalEnv) (renv : RemoteEnv) (benv : BuildEnv) (penv : PushEnv)
    (data : PushData) (d : String) (code : Option Int) (hc : code ≠ some 0) :
    (lenv.build_status = .ok code →
        (build_profile_locally lenv data d).2 = .error (.BuildExit code))
    ∧ (lenv.build_status = .ok (some 0) → lenv.deploy_rs_activate_exists = true →
        lenv.activate_rs_exists = true → (∃ k, lenv.local_key = some k) →
        lenv.sign_status = .ok code →
        (build_profile_locally lenv data d).2 = .error (.SignExit code))
    ∧ (renv.copy_status = .ok code →
        (build_profile_remotely renv d).2 = .error (.CopyExit code))
    ∧ (renv.copy_status = .ok (some 0) → renv.build_status = .ok code →
        (build_profile_remotely renv d).2 = .error (.BuildExit code))
    ∧ (data.merged_settings.remote_build.getD false = false → penv.copy_status = .ok code →
        (push_profile penv data).2 = .error (.CopyExit code))
    ∧ (∀ dec, benv.show_derivation = .ok (code, dec) →
        resolve_deriver_phase benv data = .error (.ShowDerivationExit code)) := by
  refine ⟨fun h => ?_, fun h h1 h2 hk h3 => ?_, fun h => ?_, fun h h1 => ?_,
    fun h h1 => ?_, fun dec h => ?_⟩
  · simp [build_profile_locally, h, hc]
  · obtain ⟨k, hk⟩ := hk
    simp [build_profile_locally, h, h1, h2, hk, h3, hc]
  · simp [build_profile_remotely, h, hc]
  · simp [build_profile_remotely, h, h1, hc]
  · simp [push_profile, h, h1, hc]
  · simp [resolve_deriver_phase, h, hc]

/-- Witness for C9: a signal-killed local build yields `BuildExit none`,
and a closure copy exiting 7 yields `CopyExit (some 7)`. -/
theorem exit_codes_propagated_raw_witness :
    (build_profile_locally { sampleLocalEnv with build_status := .ok none }
        sampleData "/nix/store/abc.drv").2 = .error (.BuildExit none)
    ∧ (push_profile { copy_status := .ok (some 7) } sampleData).2
        = .error (.CopyExit (some 7)) :=
  ⟨(exit_codes_propagated_raw { sampleLocalEnv with build_status := .ok none }
      sampleRemoteEnv sampleBuildEnv samplePushEnv sampleData "/nix/store/abc.drv"
      none (by decide)).1 rfl,
   (exit_codes_propagated_raw sampleLocalEnv sampleRemoteEnv sampleBuildEnv
      { copy_status := .ok (some 7) } sampleData "/nix/store/abc.drv"
      (some 7) (by decide)).2.2.2.2.1 rfl rfl⟩

theorem push_profile_trace (env : PushEnv) (data : PushData)
    (hrb : data.merged_settings.remote_build.getD false = false) :
    (push_profile env data).1
      = [Event.copyClosure (destinationUri data.ssh_user
          (match data.hostname_override with
           | some x => x
           | none => data.node_hostname)
          (data.merged_settings.compress.getD false))] := by
  unfold push_profile
  rw [hrb]
  cases env.copy_status with
  | error e => rfl
  | ok c => by_cases hc : c = some 0 <;> simp [hc]

/-- C10: for a push of a locally built artifact, an absent merged
`compress` setting builds the destination URI with `compress=false`, and
a present merged value `b` builds it with exactly that value. -/
theorem push_uri_compress (env : PushEnv) (data : PushData)
    (hrb : data.merged_settings.remote_build.getD false = false) :
    (data.merged_settings.compress = none →
        (push_profile env data).1
          = [Event.copyClosure (destinationUri data.ssh_user
              (match data.hostname_override with
               | some x => x
               | none => data.node_hostname) false)])
    ∧ (∀ b, data.merged_settings.compress = some b →
        (push_profile env data).1
          = [Event.copyClosure (destinationUri data.ssh_user
              (match data.hostname_override with
               | some x => x
               | none => data.node_hostname) b)]) := by
  constructor
  · intro h
    rw [push_profile_trace env data hrb, h]
    rfl
  · intro b h
    rw [push_profile_trace env data hrb, h]
    rfl

/-- Witness for C10: with `compress` absent the URI carries
`compress=false`; with `compress = some true` it carries
`compress=true`. -/
theorem push_uri_compress_witness :
    (push_profile samplePushEnv sampleData).1
        = [Event.copyClosure "ssh://deploy@example.com?compress=false"]
    ∧ (push_profile samplePushEnv sampleCompressData).1
        = [Event.copyClosure "ssh://deploy@example.com?compress=true"] := by
  constructor
  · rw [(push_uri_compress samplePushEnv sampleData rfl).1 rfl]
    rfl
  · rw [(push_uri_compress samplePushEnv sampleCompressData rfl).2 true rfl]
    rfl

end DeployRs
